import Mathlib

/-
Verification of the generic CRUD orchestration layer
(CrudService / useCRUD / createTypedCrud / validation adapter).

The TypeScript sources are shallowly embedded:
* runtime values flow through a single type parameter `V` in the
  create/update/delete executor, mirroring the runtime type erasure of the
  `as unknown as` casts in the source; the read executors keep separate
  parameter/result types `P`, `R1`, `R2`, mirroring their generics;
* async functions that may throw become `Except JsError _`;
* the React state cell becomes an explicit list of state writes, in the
  order the source calls `setState`; the observable state after a call is
  the last write (or the prior state when nothing was written);
* lifecycle-hook invocations (`onSuccess*` / `onError*`) and backend
  service invocations are recorded in the returned trace together with
  their arguments, so pass-through and hook-guard properties are statable.
-/

/-- Model of `ValidationError` from src/lib/types/validation.ts: the uniform error
shape produced by the validation adapter.  `errors` is a string-keyed
record, embedded as an association list with JavaScript-object update
semantics (see `recordSet`). -/
structure ValidationError where
  message : String
  path : List (String ⊕ Nat)
  errors : List (String × String)
  code : Option String
deriving DecidableEq

/-- A single field-level failure of the underlying Zod schema
(`ZodIssue`): its path segments and its message. -/
structure ZodIssue where
  path : List (String ⊕ Nat)
  message : String
deriving DecidableEq

/-- What the underlying Zod `schema.parse` can throw: a `ZodError`
carrying its list of issues, or any other error (rethrown raw by the
adapter). -/
inductive ZodThrown where
  | zodError (issues : List ZodIssue)
  | other (msg : String)
deriving DecidableEq

/-- A thrown JavaScript value as the claims need it: an `Error` with a
message, or the adapter's `ValidationError`. -/
inductive JsError where
  | error (msg : String)
  | validation (ve : ValidationError)
deriving DecidableEq

/-- The message of a thrown value (`Error.message` / `ValidationError.message`). -/
def thrownMessage : JsError → String
  | .error msg => msg
  | .validation ve => ve.message

/-- Rendering of one Zod path segment for `path.join "."`: on Zod path segments: numbers print in decimal. -/
def joinPathSegment : String ⊕ Nat → String
  | .inl s => s
  | .inr n => toString n

/-- Model of `err.path.join(".")` from the error-translation loop. -/
def joinPath (path : List (String ⊕ Nat)) : String :=
  String.intercalate "." (path.map joinPathSegment)

/-- JavaScript object assignment `record[k] = v`: overwrite the existing
entry in place when the key is present, append otherwise. -/
def recordSet : List (String × String) → String → String → List (String × String)
  | [], k, v => [(k, v)]
  | kv :: rest, k, v => if kv.1 == k then (k, v) :: rest else kv :: recordSet rest k v

/-- JavaScript object lookup `record[k]`. -/
def recordGet : List (String × String) → String → Option String
  | [], _ => none
  | kv :: rest, k => if kv.1 == k then some kv.2 else recordGet rest k

/-- One iteration of the `error.errors.forEach` loop in
`createZodValidationSchema.parse`: record the message under the joined
path when the path is non-empty, then set `path` only when it is still
empty. -/
def zodIssueStep (ve : ValidationError) (issue : ZodIssue) : ValidationError :=
  let ve1 :=
    if issue.path.length > 0 then
      { ve with errors := recordSet ve.errors (joinPath issue.path) issue.message }
    else ve
  if ve1.path.length = 0 ∧ issue.path.length > 0 then
    { ve1 with path := issue.path }
  else ve1

/-- The full error-translation loop of `createZodValidationSchema`,
starting from `{message: "Validation failed", errors: {}, path: []}`. -/
def zodErrorToValidationError (issues : List ZodIssue) : ValidationError :=
  issues.foldl zodIssueStep ⟨"Validation failed", [], [], none⟩

/-- The `parse` field of `createZodValidationSchema(schema)`: run the
underlying schema; translate a `ZodError` into the uniform
`ValidationError`; rethrow anything else unchanged. -/
def createZodValidationSchemaParse {T : Type} (schemaParse : T → Except ZodThrown T)
    (data : T) : Except JsError T :=
  match schemaParse data with
  | .ok v => .ok v
  | .error (.zodError issues) => .error (.validation (zodErrorToValidationError issues))
  | .error (.other msg) => .error (.error msg)

/-- The path of the first issue with a non-empty path ([] when none exists). -/
def firstFieldPath (issues : List ZodIssue) : List (String ⊕ Nat) :=
  match issues.find? (fun i => !i.path.isEmpty) with
  | some i => i.path
  | none => []

/-- Model of `OperationState` from useCRUD: the observable state cell of one verb. -/
structure OperationState (V : Type) where
  loading : Bool
  success : Bool
  error : Option JsError
  data : Option V
deriving DecidableEq

/-- Model of `Partial<OperationState>`: the caller's optional initial-state override. -/
structure PartialOperationState (V : Type) where
  loading : Option Bool := none
  success : Option Bool := none
  error : Option (Option JsError) := none
  data : Option (Option V) := none

/-- The all-false/null default state. -/
def defaultOperationState (V : Type) : OperationState V :=
  ⟨false, false, none, none⟩

/-- Object-spread of a partial override onto the default
(`{loading:false, ..., ...(initial || {})}`). -/
def applyInitialOverride {V : Type} (base : OperationState V)
    (p : PartialOperationState V) : OperationState V :=
  ⟨p.loading.getD base.loading, p.success.getD base.success,
   p.error.getD base.error, p.data.getD base.data⟩

/-- The initial state of a verb (`useState` initializer in useCRUD). -/
def initialOperationState {V : Type} (init : Option (PartialOperationState V)) :
    OperationState V :=
  match init with
  | none => defaultOperationState V
  | some p => applyInitialOverride (defaultOperationState V) p

/-- The five stateful verbs exposed by useCRUD. -/
inductive CrudVerb where
  | create | update | delete | readOne | readMany
deriving DecidableEq

/-- The `reset` closure of each verb in useCRUD's returned record: each
one calls `setState({loading:false, success:false, error:null, data:null})`,
ignoring the prior state. -/
def crudReset {V : Type} (verb : CrudVerb) (prior : OperationState V) :
    OperationState V :=
  match verb, prior with
  | .create, _ => ⟨false, false, none, none⟩
  | .update, _ => ⟨false, false, none, none⟩
  | .delete, _ => ⟨false, false, none, none⟩
  | .readOne, _ => ⟨false, false, none, none⟩
  | .readMany, _ => ⟨false, false, none, none⟩

/-- The observable state after a call: the last `setState` write, or the
prior state when the call wrote nothing. -/
def finalState {V : Type} (prior : OperationState V)
    (writes : List (OperationState V)) : OperationState V :=
  (writes.getLast?).getD prior

/-- Model of `OperationOptions` for the create/update/delete verbs.  Absent fields
default to `none`, mirroring the optional fields of the source. -/
structure OperationOptions (V : Type) where
  validationSchema : Option (V → Except JsError V) := none
  transformer : Option (V → V) := none
  resultTransformer : Option (V → V) := none
  service : Option (V → Except JsError V) := none
  beforeValidation : Option (V → Except JsError V) := none
  beforeService : Option (V → Except JsError V) := none
  afterService : Option (V → V → Except JsError V) := none
  onError : Option (JsError → V → Except JsError Unit) := none
  onSuccess : Option (V → V → Except JsError Unit) := none
  initialState : Option (PartialOperationState V) := none

instance {ε α : Type} [DecidableEq ε] [DecidableEq α] : DecidableEq (Except ε α) := by
  intro x y
  cases x <;> cases y
  case error.error a b =>
    exact if h : a = b then .isTrue (by rw [h]) else .isFalse (by intro hc; cases hc; exact h rfl)
  case ok.ok a b =>
    exact if h : a = b then .isTrue (by rw [h]) else .isFalse (by intro hc; cases hc; exact h rfl)
  case error.ok a b => exact .isFalse (fun hc => Except.noConfusion hc)
  case ok.error a b => exact .isFalse (fun hc => Except.noConfusion hc)

/-- Trace of one `executeOperation` call: the state writes in order, the
settled outcome, and the recorded service / hook invocations. -/
structure OpTrace (V : Type) where
  writes : List (OperationState V)
  outcome : Except JsError V
  serviceArgs : List V
  onSuccessRuns : List (V × V)
  onErrorRuns : List (JsError × V)
deriving DecidableEq

/-- Run an optional rewriting hook (`beforeValidation`, `beforeService`,
`validationSchema.parse`): absent hooks pass the value through. -/
def runHook {V : Type} (hook : Option (V → Except JsError V)) (v : V) :
    Except JsError V :=
  match hook with
  | none => .ok v
  | some h => h v

/-- Run an optional two-argument rewriting hook (`afterService`). -/
def runHook2 {A B : Type} (hook : Option (A → B → Except JsError A)) (a : A)
    (b : B) : Except JsError A :=
  match hook with
  | none => .ok a
  | some h => h a b

/-- Apply an optional pure transformer, defaulting to pass-through
(the `as unknown as` cast of the source is the runtime identity). -/
def applyTransform {V : Type} (t : Option (V → V)) (v : V) : V :=
  match t with
  | none => v
  | some f => f v

/-- The `catch` block of `executeOperation`: write the terminal error
state, run `onError(error, data)` when present (a throw from `onError`
replaces the rethrown value), and rethrow. -/
def opCatch {V : Type} (opts : OperationOptions V) (originalData : V)
    (preWrites : List (OperationState V)) (serviceArgs : List V)
    (onSuccessRuns : List (V × V)) (e : JsError) : OpTrace V :=
  let handled : Except JsError Unit × List (JsError × V) :=
    match opts.onError with
    | none => (.ok (), [])
    | some h => (h e originalData, [(e, originalData)])
  ⟨preWrites ++ [⟨false, false, some e, none⟩],
   match handled.1 with
   | .ok _ => .error e
   | .error e2 => .error e2,
   serviceArgs, onSuccessRuns, handled.2⟩

/-- Model of `executeOperation` from useCRUD: the generic executor for the
create/update/delete verbs.  The phases follow the source: configuration
check (before any state write), loading write, `beforeValidation`,
validation (with its inner catch that writes the error state and
rethrows), `transformer`, `beforeService`, `service`,
`resultTransformer`, `afterService`, success write, `onSuccess`, with the
outer catch handling every throw after the loading write. -/
def executeOperation {V : Type} (opOptions : Option (OperationOptions V))
    (data : V) : OpTrace V :=
  match opOptions with
  | none => ⟨[], .error (.error "Operation not configured"), [], [], []⟩
  | some opts =>
  match opts.service with
  | none => ⟨[], .error (.error "Operation not configured"), [], [], []⟩
  | some service =>
  let loadingState : OperationState V := ⟨true, false, none, none⟩
  -- Phase 1: beforeValidation
  match runHook opts.beforeValidation data with
  | .error e => opCatch opts data [loadingState] [] [] e
  | .ok preValidated =>
  -- Phase 2: validation; its inner catch writes the error state, then
  -- the rethrow lands in the outer catch (which writes it again)
  match runHook opts.validationSchema preValidated with
  | .error e => opCatch opts data [loadingState, ⟨false, false, some e, none⟩] [] [] e
  | .ok processedData =>
  -- Phase 3: input transformer (pass-through cast when absent)
  let transformed := applyTransform opts.transformer processedData
  -- Phase 4: beforeService
  match runHook opts.beforeService transformed with
  | .error e => opCatch opts data [loadingState] [] [] e
  | .ok serviceData =>
  -- Phase 5: service invocation
  match service serviceData with
  | .error e => opCatch opts data [loadingState] [serviceData] [] e
  | .ok serviceResult =>
  -- Phase 6: result transformer (applied to the raw service result)
  let result0 := applyTransform opts.resultTransformer serviceResult
  -- Phase 7: afterService
  match runHook2 opts.afterService result0 serviceData with
  | .error e => opCatch opts data [loadingState] [serviceData] [] e
  | .ok result =>
  -- Phase 8: success write
  let successState : OperationState V := ⟨false, true, none, some result⟩
  -- Phase 9: onSuccess (still inside the try block)
  match opts.onSuccess with
  | none => ⟨[loadingState, successState], .ok result, [serviceData], [], []⟩
  | some onSuccessHook =>
  match onSuccessHook result processedData with
  | .ok _ =>
      ⟨[loadingState, successState], .ok result, [serviceData],
       [(result, processedData)], []⟩
  | .error e =>
      opCatch opts data [loadingState, successState] [serviceData]
        [(result, processedData)] e

/-- The `service` object of `ReadOperationOptions`: optional `getOne` and
`getMany` backend functions. -/
structure ReadService (P R1 R2 : Type) where
  getOne : Option (String → Option P → Except JsError R1) := none
  getMany : Option (Option P → Except JsError R2) := none

/-- Model of `ReadOperationOptions` from useCRUD: one options bundle shared by the
two independently-stateful read verbs. -/
structure ReadOperationOptions (P R1 R2 : Type) where
  validationSchema : Option (P → Except JsError P) := none
  transformer : Option (P → P) := none
  service : Option (ReadService P R1 R2) := none
  beforeValidation : Option (P → Except JsError P) := none
  beforeService : Option (P → Except JsError P) := none
  afterServiceOne : Option (R1 → String → Except JsError R1) := none
  afterServiceMany : Option (R2 → Option P → Except JsError R2) := none
  onErrorOne : Option (JsError → String → Except JsError Unit) := none
  onErrorMany : Option (JsError → P → Except JsError Unit) := none
  onSuccessOne : Option (R1 → String → Except JsError Unit) := none
  onSuccessMany : Option (R2 → P → Except JsError Unit) := none
  initialStateOne : Option (PartialOperationState R1) := none
  initialStateMany : Option (PartialOperationState R2) := none

/-- Trace of one `executeReadOne` call. -/
structure ReadOneTrace (P R1 : Type) where
  writes : List (OperationState R1)
  outcome : Except JsError R1
  getOneArgs : List (String × Option P)
  onSuccessRuns : List (R1 × String)
  onErrorRuns : List (JsError × String)

/-- Trace of one `executeReadMany` call. -/
structure ReadManyTrace (P R2 : Type) where
  writes : List (OperationState R2)
  outcome : Except JsError R2
  getManyArgs : List (Option P)
  onSuccessRuns : List (R2 × P)
  onErrorRuns : List (JsError × P)

/-- Params validation in the read executors: the schema runs only when
params are present (`if (processedParams && options.read.validationSchema)`). -/
def readValidate {P : Type} (schema : Option (P → Except JsError P))
    (params : Option P) : Except JsError (Option P) :=
  match params, schema with
  | some p, some sch => (sch p).map some
  | pp, _ => .ok pp

/-- Params transformation in the read executors: runs only when params
are present. -/
def readTransform {P : Type} (t : Option (P → P)) (params : Option P) : Option P :=
  match params, t with
  | some p, some f => some (f p)
  | pp, _ => pp

/-- Model of `beforeService` in the read executors: runs only when both the hook
and params are present. -/
def readBeforeService {P : Type} (hook : Option (P → Except JsError P))
    (params : Option P) : Except JsError (Option P) :=
  match hook, params with
  | some h, some p => (h p).map some
  | _, pp => .ok pp

/-- The `catch` block of `executeReadOne`: write the terminal error state,
run `onErrorOne(error, id)` when present, rethrow. -/
def roCatch {P R1 : Type} (onErrorOne : Option (JsError → String → Except JsError Unit))
    (id : String) (preWrites : List (OperationState R1))
    (getOneArgs : List (String × Option P)) (onSuccessRuns : List (R1 × String))
    (e : JsError) : ReadOneTrace P R1 :=
  let handled : Except JsError Unit × List (JsError × String) :=
    match onErrorOne with
    | none => (.ok (), [])
    | some h => (h e id, [(e, id)])
  ⟨preWrites ++ [⟨false, false, some e, none⟩],
   match handled.1 with
   | .ok _ => .error e
   | .error e2 => .error e2,
   getOneArgs, onSuccessRuns, handled.2⟩

/-- The `catch` block of `executeReadMany`: write the terminal error
state, run `onErrorMany(error, params)` only when the original params
were supplied, rethrow. -/
def rmCatch {P R2 : Type} (onErrorMany : Option (JsError → P → Except JsError Unit))
    (originalParams : Option P) (preWrites : List (OperationState R2))
    (getManyArgs : List (Option P)) (onSuccessRuns : List (R2 × P))
    (e : JsError) : ReadManyTrace P R2 :=
  let handled : Except JsError Unit × List (JsError × P) :=
    match onErrorMany, originalParams with
    | some h, some p => (h e p, [(e, p)])
    | _, _ => (.ok (), [])
  ⟨preWrites ++ [⟨false, false, some e, none⟩],
   match handled.1 with
   | .ok _ => .error e
   | .error e2 => .error e2,
   getManyArgs, onSuccessRuns, handled.2⟩

/-- Model of `executeReadOne` from useCRUD: configuration check before any state
write, loading write, params validation/transformation (each only when
params are present), `beforeService`, `getOne(id, processedParams)`,
`afterServiceOne(result, id)`, success write, `onSuccessOne` (inside the
try block), with the catch handling every throw after the loading write. -/
def executeReadOne {P R1 R2 : Type} (readOptions : Option (ReadOperationOptions P R1 R2))
    (id : String) (params : Option P) : ReadOneTrace P R1 :=
  match readOptions with
  | none => ⟨[], .error (.error "Read operation not configured"), [], [], []⟩
  | some ro =>
  match ro.service with
  | none => ⟨[], .error (.error "Read operation not configured"), [], [], []⟩
  | some svc =>
  match svc.getOne with
  | none => ⟨[], .error (.error "Read operation not configured"), [], [], []⟩
  | some getOne =>
  let loadingState : OperationState R1 := ⟨true, false, none, none⟩
  match readValidate ro.validationSchema params with
  | .error e => roCatch ro.onErrorOne id [loadingState, ⟨false, false, some e, none⟩] [] [] e
  | .ok validatedParams =>
  let transformedParams := readTransform ro.transformer validatedParams
  match readBeforeService ro.beforeService transformedParams with
  | .error e => roCatch ro.onErrorOne id [loadingState] [] [] e
  | .ok processedParams =>
  match getOne id processedParams with
  | .error e => roCatch ro.onErrorOne id [loadingState] [(id, processedParams)] [] e
  | .ok result =>
  match runHook2 ro.afterServiceOne result id with
  | .error e => roCatch ro.onErrorOne id [loadingState] [(id, processedParams)] [] e
  | .ok processedResult =>
  let successState : OperationState R1 := ⟨false, true, none, some processedResult⟩
  match ro.onSuccessOne with
  | none => ⟨[loadingState, successState], .ok processedResult, [(id, processedParams)], [], []⟩
  | some onSuccessHook =>
  match onSuccessHook processedResult id with
  | .ok _ =>
      ⟨[loadingState, successState], .ok processedResult, [(id, processedParams)],
       [(processedResult, id)], []⟩
  | .error e =>
      roCatch ro.onErrorOne id [loadingState, successState] [(id, processedParams)]
        [(processedResult, id)] e

/-- Model of `executeReadMany` from useCRUD: like `executeReadOne` but for
`getMany(processedParams)`; `afterServiceMany` receives the (possibly
absent) processed params, and `onSuccessMany` runs only when the
processed params are present. -/
def executeReadMany {P R1 R2 : Type} (readOptions : Option (ReadOperationOptions P R1 R2))
    (params : Option P) : ReadManyTrace P R2 :=
  match readOptions with
  | none => ⟨[], .error (.error "Read many operation not configured"), [], [], []⟩
  | some ro =>
  match ro.service with
  | none => ⟨[], .error (.error "Read many operation not configured"), [], [], []⟩
  | some svc =>
  match svc.getMany with
  | none => ⟨[], .error (.error "Read many operation not configured"), [], [], []⟩
  | some getMany =>
  let loadingState : OperationState R2 := ⟨true, false, none, none⟩
  match readValidate ro.validationSchema params with
  | .error e => rmCatch ro.onErrorMany params [loadingState, ⟨false, false, some e, none⟩] [] [] e
  | .ok validatedParams =>
  let transformedParams := readTransform ro.transformer validatedParams
  match readBeforeService ro.beforeService transformedParams with
  | .error e => rmCatch ro.onErrorMany params [loadingState] [] [] e
  | .ok processedParams =>
  match getMany processedParams with
  | .error e => rmCatch ro.onErrorMany params [loadingState] [processedParams] [] e
  | .ok result =>
  match runHook2 ro.afterServiceMany result processedParams with
  | .error e => rmCatch ro.onErrorMany params [loadingState] [processedParams] [] e
  | .ok processedResult =>
  let successState : OperationState R2 := ⟨false, true, none, some processedResult⟩
  match ro.onSuccessMany, processedParams with
  | some onSuccessHook, some p =>
    (match onSuccessHook processedResult p with
     | .ok _ =>
         ⟨[loadingState, successState], .ok processedResult, [processedParams],
          [(processedResult, p)], []⟩
     | .error e =>
         rmCatch ro.onErrorMany params [loadingState, successState] [processedParams]
           [(processedResult, p)] e)
  | _, _ => ⟨[loadingState, successState], .ok processedResult, [processedParams], [], []⟩

/-- The api object injected into `CrudService` (create/update/delete part). -/
structure CrudServiceApi (V : Type) where
  create : Option (V → Except JsError V) := none
  update : Option (V → Except JsError V) := none
  delete : Option (V → Except JsError V) := none

/-- Model of `CrudService.update` from the service layer: fail with an error
naming the verb and the entity when `api.update` is absent; otherwise
transform the DTO (pass-through when no transformer) and invoke the api
(the catch block rethrows the error unchanged after logging). -/
def crudServiceUpdate {V : Type} (entityName : String) (api : CrudServiceApi V)
    (updateDtoToEntity : Option (V → V)) (data : V) : Except JsError V :=
  match api.update with
  | none => .error (.error ("Update API not implemented for " ++ entityName))
  | some apiUpdate => apiUpdate (applyTransform updateDtoToEntity data)

/-- Model of the `meta` object of a read-many result (total/page/limit/pages, all optional). -/
structure ReadManyMeta where
  total : Option Nat := none
  page : Option Nat := none
  limit : Option Nat := none
  pages : Option Nat := none
deriving DecidableEq

/-- Model of `ReadManyResult` from the service layer: a data array plus optional
pagination metadata.  Infra- and UI-shaped entities share the Lean type
`Ent`, mirroring the runtime type erasure of the factory's casts. -/
structure ReadManyResult (Ent : Type) where
  data : List Ent
  meta : Option ReadManyMeta := none
deriving DecidableEq

/-- Model of `transformReadManyResult` from `createTypedCrud`: a caller-supplied
whole-result transformer takes precedence; otherwise map
`infraEntityToUI` element-wise over `data` and pass `meta` through. -/
def transformReadManyResult {Ent : Type}
    (infraReadManyToUI : Option (ReadManyResult Ent → ReadManyResult Ent))
    (infraEntityToUI : Ent → Ent) (result : ReadManyResult Ent) : ReadManyResult Ent :=
  match infraReadManyToUI with
  | some t => t result
  | none => ⟨result.data.map infraEntityToUI, result.meta⟩

/-- The `afterService` injected by `createTypedCrud` into the create (and
update) options: transform the result with `infraEntityToUI`, then hand
the transformed value to the caller's original `afterService` when one
was supplied, else return it. -/
def typedCreateAfterService {V : Type} (infraEntityToUI : V → V)
    (userAfterService : Option (V → V → Except JsError V)) :
    V → V → Except JsError V :=
  match userAfterService with
  | some uas => fun result originalData => uas (infraEntityToUI result) originalData
  | none => fun result _ => .ok (infraEntityToUI result)

/-- The create-options rewiring of `createTypedCrud`: spread the caller's
options, overwrite `resultTransformer` with `infraEntityToUI`, and wrap
`afterService` with `typedCreateAfterService`. -/
def typedCreateOptions {V : Type} (infraEntityToUI : V → V)
    (userCreate : Option (OperationOptions V)) : Option (OperationOptions V) :=
  userCreate.map fun c =>
    { c with
      resultTransformer := some infraEntityToUI
      afterService := some (typedCreateAfterService infraEntityToUI c.afterService) }

/-- The `afterServiceMany` injected by `createTypedCrud` into the read
options: transform the raw result with `transformReadManyResult`, call
the caller's original `onSuccessMany` with the transformed value when one
was supplied, and return the transformed value. -/
def typedAfterServiceMany {P Ent : Type} (infraEntityToUI : Ent → Ent)
    (infraReadManyToUI : Option (ReadManyResult Ent → ReadManyResult Ent))
    (userOnSuccessMany : Option (ReadManyResult Ent → Option P → Except JsError Unit)) :
    ReadManyResult Ent → Option P → Except JsError (ReadManyResult Ent) :=
  fun result params =>
    let transformedResult := transformReadManyResult infraReadManyToUI infraEntityToUI result
    match userOnSuccessMany with
    | some h =>
      (match h transformedResult params with
       | .ok _ => .ok transformedResult
       | .error e => .error e)
    | none => .ok transformedResult

/-- Substring test on strings (used to state whether an error message
names a verb or an entity). -/
def strContains (s sub : String) : Bool :=
  (List.range (s.data.length + 1)).any (fun i => sub.data.isPrefixOf (s.data.drop i))

/-- Concrete configured operations exercising C1 at a settled call. -/
def c1Opts : OperationOptions Nat := { service := some fun v => .ok (v + 1) }

/-- Concrete configured read options exercising C1. -/
def c1ReadOpts : ReadOperationOptions Nat Nat Nat :=
  { service := some { getOne := some fun _ _ => .ok 1, getMany := some fun _ => .ok 2 } }

/-- The message of a settled rejection ("" when the call resolved). -/
def outcomeMessage {V : Type} : Except JsError V → String
  | .error e => thrownMessage e
  | .ok _ => ""

/-- Model of `SortOption` from the service layer (the direction literal type kept
as a string). -/
structure SortOption where
  field : String
  direction : String
deriving DecidableEq

/-- Model of `PaginationOptions` from the service layer. -/
structure PaginationOptions where
  page : Option Nat := none
  limit : Option Nat := none
  offset : Option Nat := none
  cursor : Option String := none
deriving DecidableEq

/-- A concrete read-params value of the shape used by the spec's
pass-through scenario (`{pagination:{page,limit}, sort:[...]}`). -/
structure SampleReadParams where
  pagination : Option PaginationOptions := none
  sort : List SortOption := []
deriving DecidableEq

/-- The concrete params object of the spec's `getMany` scenario. -/
def c7Params : SampleReadParams :=
  { pagination := some { page := some 2, limit := some 10 },
    sort := [{ field := "name", direction := "asc" }] }

/-- Concrete read options with no transformer configured. -/
def c7ReadOpts : ReadOperationOptions SampleReadParams Nat Nat :=
  { service := some { getMany := some fun _ => .ok 0 } }

/-- Concrete create options with no transformer configured. -/
def c7CreateOpts : OperationOptions Nat := { service := some fun v => .ok v }

/-- Concrete operation options whose validation schema rejects every
input and which configure an `onError` hook. -/
def c5Opts : OperationOptions Nat :=
  { service := some fun v => .ok v,
    validationSchema := some fun _ =>
      .error (.validation ⟨"Validation failed", [], [], none⟩),
    onError := some fun _ _ => .ok () }

/-- The concrete validation error thrown by `c5Opts`. -/
def c5Err : JsError := .validation ⟨"Validation failed", [], [], none⟩

/-- Concrete operation options whose pipeline succeeds with result 7 and
whose `onSuccess` hook throws. -/
def c4Opts : OperationOptions Nat :=
  { service := some fun _ => .ok 7,
    onSuccess := some fun _ _ => .error (.error "boom") }

/-- The caller's create options of the C2 scenario: a configured backend
`create` that resolves with the infra-shaped value `R = 0`, no caller
hooks. -/
def c2UserCreate : OperationOptions Nat := { service := some fun _ => .ok 0 }

/-- The caller-configured initial override of the C6 scenario. -/
def c6Override : PartialOperationState Nat := { data := some (some 5) }

/-- The concrete issue list of the C8 witness: two field-level failures
on distinct paths. -/
def c8Issues : List ZodIssue :=
  [{ path := [.inl "a"], message := "bad a" },
   { path := [.inl "b", .inr 0], message := "bad b0" }]

/-- A concrete underlying schema that always fails with `c8Issues`. -/
def c8SchemaParse : Nat → Except ZodThrown Nat := fun _ => .error (.zodError c8Issues)

/-- The concrete backend read-many result of the C9 witness. -/
def c9Result : ReadManyResult Nat := { data := [1, 2], meta := some { total := some 2 } }

/-- Concrete read options wired the way `createTypedCrud` wires them,
with `infraEntityToUI = Nat.succ` and no whole-result transformer. -/
def c9ReadOpts : ReadOperationOptions Nat (ReadManyResult Nat) (ReadManyResult Nat) :=
  { service := some { getMany := some fun _ => .ok c9Result },
    afterServiceMany := some (typedAfterServiceMany Nat.succ none none) }

/-- Concrete read options with both many-hooks configured, exercised with
absent params. -/
def c10ReadOpts : ReadOperationOptions Nat Nat Nat :=
  { service := some { getMany := some fun _ => .ok 5 },
    onSuccessMany := some fun _ _ => .ok (),
    onErrorMany := some fun _ _ => .ok () }

/-! ### Theorems -/

example : (executeOperation (none : Option (OperationOptions Nat)) 3).writes = [] := rfl

example :
    (executeOperation
      (some { service := some fun v => .ok (v + 1) } : Option (OperationOptions Nat))
      3).outcome = .ok 4 := rfl

example : strContains "Update API not implemented for Task" "Task" = true := by decide
example : strContains "Operation not configured" "update" = false := by decide

theorem finalState_concat {V : Type} (prior s : OperationState V)
    (l : List (OperationState V)) : finalState prior (l ++ [s]) = s := by
  simp [finalState, List.getLast?_append_cons]

theorem opCatch_writes {V : Type} (opts : OperationOptions V) (d : V)
    (pre : List (OperationState V)) (sa : List V) (osr : List (V × V)) (e : JsError) :
    (opCatch opts d pre sa osr e).writes = pre ++ [⟨false, false, some e, none⟩] := rfl

theorem roCatch_writes {P R1 : Type} (oe : Option (JsError → String → Except JsError Unit))
    (id : String) (pre : List (OperationState R1)) (ga : List (String × Option P))
    (osr : List (R1 × String)) (e : JsError) :
    (roCatch oe id pre ga osr e : ReadOneTrace P R1).writes =
      pre ++ [⟨false, false, some e, none⟩] := rfl

theorem rmCatch_writes {P R2 : Type} (oe : Option (JsError → P → Except JsError Unit))
    (op : Option P) (pre : List (OperationState R2)) (ga : List (Option P))
    (osr : List (R2 × P)) (e : JsError) :
    (rmCatch oe op pre ga osr e : ReadManyTrace P R2).writes =
      pre ++ [⟨false, false, some e, none⟩] := rfl

theorem finalState_pair {V : Type} (prior a b : OperationState V) :
    finalState prior [a, b] = b := rfl

theorem finalState_singleton {V : Type} (prior a : OperationState V) :
    finalState prior [a] = a := rfl

theorem finalState_cons_cons {V : Type} (prior a b : OperationState V)
    (l : List (OperationState V)) :
    finalState prior (a :: b :: l) = finalState prior (b :: l) := by
  simp [finalState, List.getLast?_cons_cons]

/-- C1: For every configured verb (create/update/delete via
`executeOperation`, read-one, read-many), after `execute` settles —
resolve or reject — the verb's observable state (the last state write
applied to any prior state) has `loading = false`: no exit path leaves
`loading = true`. -/
theorem C1_execute_settles_not_loading :
    (∀ (V : Type) (opts : OperationOptions V) (svc : V → Except JsError V)
       (data : V) (prior : OperationState V), opts.service = some svc →
       (finalState prior (executeOperation (some opts) data).writes).loading = false) ∧
    (∀ (P R1 R2 : Type) (ro : ReadOperationOptions P R1 R2) (svc : ReadService P R1 R2)
       (g : String → Option P → Except JsError R1) (id : String) (params : Option P)
       (prior : OperationState R1), ro.service = some svc → svc.getOne = some g →
       (finalState prior (executeReadOne (some ro) id params).writes).loading = false) ∧
    (∀ (P R1 R2 : Type) (ro : ReadOperationOptions P R1 R2) (svc : ReadService P R1 R2)
       (g : Option P → Except JsError R2) (params : Option P)
       (prior : OperationState R2), ro.service = some svc → svc.getMany = some g →
       (finalState prior (executeReadMany (some ro) params).writes).loading = false) := by
  refine ⟨fun V opts svc data prior hsvc => ?_,
          fun P R1 R2 ro svc g id params prior hsvc hg => ?_,
          fun P R1 R2 ro svc g params prior hsvc hg => ?_⟩
  · unfold executeOperation
    iterate 12 (all_goals (try split)
                all_goals (try simp_all [opCatch_writes, finalState_concat,
                  finalState_pair, finalState_singleton, finalState_cons_cons]))
  · unfold executeReadOne
    iterate 12 (all_goals (try split)
                all_goals (try simp_all [roCatch_writes, finalState_concat,
                  finalState_pair, finalState_singleton, finalState_cons_cons]))
  · unfold executeReadMany
    iterate 12 (all_goals (try split)
                all_goals (try simp_all [rmCatch_writes, finalState_concat,
                  finalState_pair, finalState_singleton, finalState_cons_cons]))

/-- Witness for C1: instantiating all three conjuncts at configured
concrete verbs. -/
theorem C1_witness :
    (finalState (defaultOperationState Nat)
      (executeOperation (some c1Opts) 0).writes).loading = false ∧
    (finalState (defaultOperationState Nat)
      (executeReadOne (some c1ReadOpts) "42" none).writes).loading = false ∧
    (finalState (defaultOperationState Nat)
      (executeReadMany (some c1ReadOpts) none).writes).loading = false :=
  ⟨C1_execute_settles_not_loading.1 Nat c1Opts _ 0 _ rfl,
   C1_execute_settles_not_loading.2.1 Nat Nat Nat c1ReadOpts _ _ "42" none _ rfl rfl,
   C1_execute_settles_not_loading.2.2 Nat Nat Nat c1ReadOpts _ _ none _ rfl rfl⟩

/-- C3 counterexample: The claim's concrete scenario: `update` is not
configured and `update.execute x` is called.  The claim asserts the
rejection is a configuration error naming the missing verb (and the
entity) while the state stays unchanged.  The call does reject without
writing state, but with the fixed message "Operation not configured",
which does not name the verb "update" — the conjunction is false. -/
theorem C3_counterexample :
    ¬ ((executeOperation (none : Option (OperationOptions Nat)) 0).writes = [] ∧
       strContains
         (outcomeMessage (executeOperation (none : Option (OperationOptions Nat)) 0).outcome)
         "update" = true) := by
  decide

/-- C3 (amended): Calling `execute` on a verb whose options or whose
service function was not supplied rejects with the fixed configuration
error "Operation not configured" (naming neither the entity nor the
verb) — read verbs with "Read operation not configured" / "Read many
operation not configured" — and writes no state at all, so the verb's
state remains unchanged from its default and never enters loading.  The
error that does name the entity and the missing verb is raised one layer
down, by `CrudService.update` when its `api.update` is absent. -/
theorem C3_unconfigured_rejects :
    (∀ (V : Type) (data : V),
       executeOperation (none : Option (OperationOptions V)) data =
         ⟨[], .error (.error "Operation not configured"), [], [], []⟩) ∧
    (∀ (V : Type) (opts : OperationOptions V) (data : V), opts.service = none →
       executeOperation (some opts) data =
         ⟨[], .error (.error "Operation not configured"), [], [], []⟩) ∧
    (∀ (P R1 R2 : Type) (id : String) (params : Option P),
       executeReadOne (none : Option (ReadOperationOptions P R1 R2)) id params =
         ⟨[], .error (.error "Read operation not configured"), [], [], []⟩) ∧
    (∀ (P R1 R2 : Type) (params : Option P),
       executeReadMany (none : Option (ReadOperationOptions P R1 R2)) params =
         ⟨[], .error (.error "Read many operation not configured"), [], [], []⟩) ∧
    (∀ (V : Type) (entityName : String) (tr : Option (V → V)) (data : V)
       (api : CrudServiceApi V), api.update = none →
       crudServiceUpdate entityName api tr data =
         .error (.error ("Update API not implemented for " ++ entityName))) ∧
    (strContains "Update API not implemented for Task" "Update" = true ∧
     strContains "Update API not implemented for Task" "Task" = true) := by
  refine ⟨fun V data => rfl, fun V opts data h => ?_, fun P R1 R2 id params => rfl,
          fun P R1 R2 params => rfl, fun V en tr data api h => ?_, by decide, by decide⟩
  · simp only [executeOperation, h]
  · simp only [crudServiceUpdate, h]

/-- Witness for C3 (amended): a concrete unconfigured verb and a concrete
`CrudService` with a missing update api. -/
theorem C3_witness :
    executeOperation (some ({} : OperationOptions Nat)) 5 =
      ⟨[], .error (.error "Operation not configured"), [], [], []⟩ ∧
    crudServiceUpdate "Task" ({} : CrudServiceApi Nat) none 5 =
      .error (.error ("Update API not implemented for " ++ "Task")) :=
  ⟨C3_unconfigured_rejects.2.1 Nat {} 5 rfl,
   C3_unconfigured_rejects.2.2.2.2.1 Nat "Task" none 5 {} rfl⟩

theorem opCatch_serviceArgs {V : Type} (opts : OperationOptions V) (d : V)
    (pre : List (OperationState V)) (sa : List V) (osr : List (V × V)) (e : JsError) :
    (opCatch opts d pre sa osr e).serviceArgs = sa := rfl

theorem rmCatch_getManyArgs {P R2 : Type} (oe : Option (JsError → P → Except JsError Unit))
    (op : Option P) (pre : List (OperationState R2)) (ga : List (Option P))
    (osr : List (R2 × P)) (e : JsError) :
    (rmCatch oe op pre ga osr e : ReadManyTrace P R2).getManyArgs = ga := rfl

/-- C7: When no input transformer is configured (and no other
input-rewriting stage — `beforeValidation`, validation schema,
`beforeService` — is configured either), the transform step of the
pipeline is the identity: `create(dto)` invokes the backend service with
`dto` itself, and `getMany(params)` passes the caller's params object to
the backend `getMany` unmodified. -/
theorem C7_no_transformer_identity :
    (∀ (V : Type) (opts : OperationOptions V) (svc : V → Except JsError V) (dto : V),
       opts.service = some svc → opts.transformer = none →
       opts.beforeValidation = none → opts.validationSchema = none →
       opts.beforeService = none →
       (executeOperation (some opts) dto).serviceArgs = [dto]) ∧
    (∀ (P R1 R2 : Type) (ro : ReadOperationOptions P R1 R2) (svc : ReadService P R1 R2)
       (gm : Option P → Except JsError R2) (params : Option P),
       ro.service = some svc → svc.getMany = some gm → ro.transformer = none →
       ro.validationSchema = none → ro.beforeService = none →
       (executeReadMany (some ro) params).getManyArgs = [params]) := by
  constructor
  · intro V opts svc dto hsvc htr hbv hvs hbs
    unfold executeOperation
    iterate 12 (all_goals (try split)
                all_goals (try simp_all [runHook, runHook2, applyTransform,
                  opCatch_serviceArgs]))
  · intro P R1 R2 ro svc gm params hsvc hgm htr hvs hbs
    unfold executeReadMany
    iterate 12 (all_goals (try split)
                all_goals (try simp_all [readValidate, readTransform, readBeforeService,
                  runHook2, rmCatch_getManyArgs]))

/-- Witness for C7: the concrete `dto` and the spec's concrete params
object reach the backend unchanged. -/
theorem C7_witness :
    (executeOperation (some c7CreateOpts) 37).serviceArgs = [37] ∧
    (executeReadMany (some c7ReadOpts) (some c7Params)).getManyArgs = [some c7Params] :=
  ⟨C7_no_transformer_identity.1 Nat c7CreateOpts _ 37 rfl rfl rfl rfl rfl,
   C7_no_transformer_identity.2 SampleReadParams Nat Nat c7ReadOpts _ _ (some c7Params)
     rfl rfl rfl rfl rfl⟩

/-- C5 counterexample: The claim asserts that `onError` is not
invoked when validation fails.  At these concrete options (validation
schema rejects, `onError` configured), the rethrown validation error
lands in the operation's generic catch block, which does invoke
`onError`: the recorded `onError` invocations are non-empty. -/
theorem C5_counterexample :
    ¬ ((executeOperation (some c5Opts) 0).onErrorRuns = []) := by
  decide

/-- C5 (amended): A validation-schema rejection sets the terminal
error state with the thrown error and rethrows immediately, with no
further pipeline steps run (no transform, no service call, no success
hook); however the rethrow is caught by the operation's generic catch
block, which sets the same terminal error state again and does invoke
`onError(error, originalInput)` before rethrowing to the caller. -/
theorem C5_validation_failure_behavior {V : Type} (opts : OperationOptions V)
    (svc sch : V → Except JsError V) (h : JsError → V → Except JsError Unit)
    (data : V) (e : JsError)
    (hsvc : opts.service = some svc) (hbv : opts.beforeValidation = none)
    (hsch : opts.validationSchema = some sch) (hfail : sch data = .error e)
    (herr : opts.onError = some h) (hok : h e data = .ok ()) :
    executeOperation (some opts) data =
      ⟨[⟨true, false, none, none⟩, ⟨false, false, some e, none⟩,
        ⟨false, false, some e, none⟩], .error e, [], [], [(e, data)]⟩ := by
  simp only [executeOperation, hsvc, hbv, hsch, runHook, hfail, opCatch, herr, hok]
  rfl

/-- Witness for C5 (amended): the full settled trace of the concrete
validation failure — double error-state write, no service call, one
`onError` run, rejection with the validation error. -/
theorem C5_witness :
    executeOperation (some c5Opts) 0 =
      ⟨[⟨true, false, none, none⟩, ⟨false, false, some c5Err, none⟩,
        ⟨false, false, some c5Err, none⟩], .error c5Err, [], [], [(c5Err, 0)]⟩ :=
  C5_validation_failure_behavior c5Opts _ _ _ 0 c5Err rfl rfl rfl rfl rfl rfl

/-- C4 counterexample: The claim asserts that a throw from
`onSuccess` leaves the outcome unchanged — `execute` still resolves with
the pipeline's result and the terminal success state is not overwritten.
At these concrete options the pipeline result is 7, yet the call does
not resolve with 7 and the last state write is not the success state:
the conjunction the claim asserts is false. -/
theorem C4_counterexample :
    ¬ ((executeOperation (some c4Opts) 0).outcome = .ok 7 ∧
       (executeOperation (some c4Opts) 0).writes.getLast? =
         some ⟨false, true, none, some 7⟩) := by
  decide

/-- C4 (amended): `onSuccess` runs inside the try block: when it
throws after the terminal success state has been set, the throw is
caught by the generic catch, which overwrites the success state with the
terminal error state, runs `onError` when present (absent here), and
rejects `execute` with the hook's error instead of the pipeline's
result. -/
theorem C4_onSuccess_throw_caught {V : Type} (opts : OperationOptions V)
    (svc : V → Except JsError V) (h : V → V → Except JsError Unit)
    (data r : V) (e : JsError)
    (hsvc : opts.service = some svc) (hbv : opts.beforeValidation = none)
    (hvs : opts.validationSchema = none) (htr : opts.transformer = none)
    (hbs : opts.beforeService = none) (hrt : opts.resultTransformer = none)
    (hafter : opts.afterService = none) (hres : svc data = .ok r)
    (hos : opts.onSuccess = some h) (hthrow : h r data = .error e)
    (herr : opts.onError = none) :
    executeOperation (some opts) data =
      ⟨[⟨true, false, none, none⟩, ⟨false, true, none, some r⟩,
        ⟨false, false, some e, none⟩], .error e, [data], [(r, data)], []⟩ := by
  simp only [executeOperation, hsvc, hbv, hvs, htr, hbs, hrt, hafter, runHook,
    runHook2, applyTransform, hres, hos, hthrow, opCatch, herr]
  rfl

/-- Witness for C4 (amended): the full settled trace of the concrete
`onSuccess` throw — success write then error write, rejection with the
hook's error. -/
theorem C4_witness :
    executeOperation (some c4Opts) 0 =
      ⟨[⟨true, false, none, none⟩, ⟨false, true, none, some 7⟩,
        ⟨false, false, some (.error "boom"), none⟩],
       .error (.error "boom"), [0], [(7, 0)], []⟩ :=
  C4_onSuccess_throw_caught c4Opts _ _ 0 7 _ rfl rfl rfl rfl rfl rfl rfl rfl rfl rfl rfl

/-- C2 (code bug): Evaluation of the factory-wired create pipeline at
the failing input: `infraEntityToUI = Nat.succ` (a stand-in for any
non-idempotent transform) and backend result `R = 0`.  The claim (and
the factory's declared UI result type) expect `execute` to resolve with
`f R = 1`; `createTypedCrud` installs `f` both as `resultTransformer`
and as the default `afterService`, and `executeOperation` applies both
(phases 6 and 7), so the call resolves with `f (f R) = 2` and stores the
same doubly-transformed value in state. -/
theorem C2_create_double_transform :
    (executeOperation (typedCreateOptions Nat.succ (some c2UserCreate)) 5).outcome =
      .ok (Nat.succ (Nat.succ 0)) ∧
    (executeOperation (typedCreateOptions Nat.succ (some c2UserCreate)) 5).writes.getLast? =
      some ⟨false, true, none, some (Nat.succ (Nat.succ 0))⟩ ∧
    Nat.succ (Nat.succ 0) ≠ Nat.succ 0 :=
  ⟨rfl, rfl, by decide⟩

/-- C6 counterexample: With an initial override supplied at setup,
the claim says `reset()` restores that override; the reset closure of
every verb writes the hard default instead, which differs from the
override-applied initial state at this concrete input. -/
theorem C6_counterexample :
    ¬ (crudReset CrudVerb.create ⟨false, true, none, some 9⟩ =
       initialOperationState (some c6Override)) := by
  decide

/-- C6 (amended): For every verb and every prior state, `reset()`
sets the verb's state to exactly `{loading:false, success:false,
error:null, data:null}` — the hard default — regardless of the prior
state and regardless of any caller-configured initial override (the
override only affects the initial state, never what reset restores). -/
theorem C6_reset_restores_default :
    ∀ (V : Type) (verb : CrudVerb) (prior : OperationState V),
      crudReset verb prior = defaultOperationState V ∧
      crudReset verb prior = initialOperationState none := by
  intro V verb prior
  cases verb <;> exact ⟨rfl, rfl⟩

theorem recordGet_recordSet_self (m : List (String × String)) (k v : String) :
    recordGet (recordSet m k v) k = some v := by
  induction m with
  | nil => simp [recordSet, recordGet]
  | cons kv rest ih =>
    by_cases hk : kv.1 = k <;> simp [recordSet, recordGet, hk, ih]

theorem recordGet_recordSet_ne (m : List (String × String)) (k k' v : String)
    (h : k' ≠ k) : recordGet (recordSet m k v) k' = recordGet m k' := by
  induction m with
  | nil => simp [recordSet, recordGet, Ne.symm h]
  | cons kv rest ih =>
    by_cases hk : kv.1 = k <;> by_cases hk' : kv.1 = k' <;>
      simp_all [recordSet, recordGet]

theorem zodIssueStep_path_of_ne (ve : ValidationError) (issue : ZodIssue)
    (h : ¬ ve.path = []) : (zodIssueStep ve issue).path = ve.path := by
  by_cases hc : issue.path.length > 0 <;>
    simp [zodIssueStep, hc, List.length_eq_zero, h]

theorem zodIssueStep_errors (ve : ValidationError) (issue : ZodIssue) :
    (zodIssueStep ve issue).errors =
      if issue.path.length > 0 then
        recordSet ve.errors (joinPath issue.path) issue.message
      else ve.errors := by
  unfold zodIssueStep
  split_ifs <;> simp_all [apply_ite ValidationError.errors]

theorem foldl_zodIssueStep_path_of_ne (issues : List ZodIssue) :
    ∀ ve : ValidationError, ¬ ve.path = [] →
      (issues.foldl zodIssueStep ve).path = ve.path := by
  induction issues with
  | nil => intro ve _; rfl
  | cons i is ih =>
    intro ve h
    rw [List.foldl_cons,
        ih _ (by rw [zodIssueStep_path_of_ne ve i h]; exact h),
        zodIssueStep_path_of_ne ve i h]

theorem foldl_zodIssueStep_path_of_empty (issues : List ZodIssue) :
    ∀ ve : ValidationError, ve.path = [] →
      (issues.foldl zodIssueStep ve).path = firstFieldPath issues := by
  induction issues with
  | nil => intro ve h; simpa [firstFieldPath] using h
  | cons i is ih =>
    intro ve h
    by_cases hp : i.path = []
    · have hstep : zodIssueStep ve i = ve := by
        simp [zodIssueStep, hp]
      rw [List.foldl_cons, hstep, ih ve h]
      simp [firstFieldPath, List.find?, hp]
    · have hlen : i.path.length > 0 := List.length_pos.mpr hp
      have hstep : (zodIssueStep ve i).path = i.path := by
        simp [zodIssueStep, hlen, h]
      rw [List.foldl_cons,
          foldl_zodIssueStep_path_of_ne is _ (by rw [hstep]; exact hp), hstep]
      obtain ⟨a, t, hat⟩ := List.exists_cons_of_ne_nil hp
      simp [firstFieldPath, hat]

theorem foldl_zodIssueStep_errors_stable (issues : List ZodIssue) :
    ∀ (ve : ValidationError) (k m : String),
      recordGet ve.errors k = some m →
      (∀ j ∈ issues, j.path ≠ [] → joinPath j.path = k → j.message = m) →
      recordGet (issues.foldl zodIssueStep ve).errors k = some m := by
  induction issues with
  | nil => intro ve k m hget _; exact hget
  | cons i is ih =>
    intro ve k m hget hco
    rw [List.foldl_cons]
    refine ih _ k m ?_ (fun j hj hjp hjk => hco j (List.mem_cons_of_mem _ hj) hjp hjk)
    rw [zodIssueStep_errors]
    by_cases hp : i.path.length > 0
    · rw [if_pos hp]
      by_cases hkey : joinPath i.path = k
      · rw [hkey, recordGet_recordSet_self,
            hco i (List.mem_cons_self _ _) (List.length_pos.mp hp) hkey]
      · rw [recordGet_recordSet_ne _ _ _ _ (fun hc => hkey hc.symm)]
        exact hget
    · rw [if_neg hp]; exact hget

theorem foldl_zodIssueStep_errors_mem (issues : List ZodIssue) (i : ZodIssue) :
    ∀ ve : ValidationError, i ∈ issues → i.path ≠ [] →
      (∀ j ∈ issues, j.path ≠ [] → joinPath j.path = joinPath i.path →
        j.message = i.message) →
      recordGet (issues.foldl zodIssueStep ve).errors (joinPath i.path) =
        some i.message := by
  induction issues with
  | nil => intro ve hmem; cases hmem
  | cons j js ih =>
    intro ve hmem hip hco
    rw [List.foldl_cons]
    by_cases hkey : j.path ≠ [] ∧ joinPath j.path = joinPath i.path
    · refine foldl_zodIssueStep_errors_stable js _ _ _ ?_
        (fun j' hj' hjp hjk => hco j' (List.mem_cons_of_mem _ hj') hjp hjk)
      rw [zodIssueStep_errors, if_pos (List.length_pos.mpr hkey.1), hkey.2,
          recordGet_recordSet_self,
          hco j (List.mem_cons_self _ _) hkey.1 hkey.2]
    · have hmem' : i ∈ js := by
        rcases List.mem_cons.mp hmem with hji | hmem'
        · exact absurd ⟨hji ▸ hip, by rw [hji]⟩ hkey
        · exact hmem'
      exact ih _ hmem' hip
        (fun j' hj' hjp hjk => hco j' (List.mem_cons_of_mem _ hj') hjp hjk)

/-- C8: On an underlying schema failure (a `ZodError` carrying its
issues), the adapter's `parse` throws the translated `ValidationError`
(not the library's native error); the error's `errors` record maps each
field-level failure's dot-joined path to its message (failures sharing a
joined path must agree on the message, since a later assignment to the
same key overwrites), and the error's `path` equals the first
field-level failure's path segments and is never overwritten by later
failures. -/
theorem C8_zod_error_translation {T : Type} (schemaParse : T → Except ZodThrown T)
    (input : T) (issues : List ZodIssue)
    (hthrow : schemaParse input = .error (.zodError issues))
    (hco : ∀ i ∈ issues, ∀ j ∈ issues, i.path ≠ [] → j.path ≠ [] →
           joinPath i.path = joinPath j.path → i.message = j.message) :
    createZodValidationSchemaParse schemaParse input =
      .error (.validation (zodErrorToValidationError issues)) ∧
    (∀ i ∈ issues, i.path ≠ [] →
       recordGet (zodErrorToValidationError issues).errors (joinPath i.path) =
         some i.message) ∧
    (zodErrorToValidationError issues).path = firstFieldPath issues := by
  refine ⟨by simp [createZodValidationSchemaParse, hthrow], ?_, ?_⟩
  · intro i hi hip
    exact foldl_zodIssueStep_errors_mem issues i _ hi hip
      (fun j hj hjp hjk => hco j hj i hi hjp hip hjk)
  · exact foldl_zodIssueStep_path_of_empty issues _ rfl

/-- Witness for C8: the translated error, the recorded entry for the
first field path, and the first-failure path. -/
theorem C8_witness :
    createZodValidationSchemaParse c8SchemaParse 0 =
      .error (.validation (zodErrorToValidationError c8Issues)) ∧
    recordGet (zodErrorToValidationError c8Issues).errors
      (joinPath [Sum.inl "a"]) = some "bad a" ∧
    (zodErrorToValidationError c8Issues).path = firstFieldPath c8Issues :=
  have h := C8_zod_error_translation c8SchemaParse 0 c8Issues rfl (by decide)
  ⟨h.1, h.2.1 ⟨[Sum.inl "a"], "bad a"⟩ (by decide) (by decide), h.2.2⟩

/-- C9: For an orchestrator produced by `createTypedCrud`, a
read-many result is transformed once, by the `transformReadManyResult`
wired in through the injected `afterServiceMany`: the settled value (and
the success-state `data`) equal the transformed result; when no
whole-result transformer is supplied, the transform maps
`infraEntityToUI` element-wise over the result's `data` while `meta`
passes through unchanged; a caller-supplied `infraReadManyToUI` is
applied instead and takes precedence over the element-wise default. -/
theorem C9_readMany_transformation {P Ent : Type}
    (ro : ReadOperationOptions P (ReadManyResult Ent) (ReadManyResult Ent))
    (svc : ReadService P (ReadManyResult Ent) (ReadManyResult Ent))
    (gm : Option P → Except JsError (ReadManyResult Ent))
    (f : Ent → Ent) (custom : Option (ReadManyResult Ent → ReadManyResult Ent))
    (params : Option P) (r : ReadManyResult Ent)
    (hsvc : ro.service = some svc) (hgm : svc.getMany = some gm)
    (hvs : ro.validationSchema = none) (htr : ro.transformer = none)
    (hbs : ro.beforeService = none)
    (hafter : ro.afterServiceMany = some (typedAfterServiceMany f custom none))
    (hos : ro.onSuccessMany = none)
    (hres : gm params = .ok r) :
    (executeReadMany (some ro) params).outcome =
      .ok (transformReadManyResult custom f r) ∧
    (executeReadMany (some ro) params).writes.getLast? =
      some ⟨false, true, none, some (transformReadManyResult custom f r)⟩ ∧
    (custom = none →
      transformReadManyResult custom f r = ⟨r.data.map f, r.meta⟩) ∧
    (∀ t, custom = some t → transformReadManyResult custom f r = t r) := by
  have hmain :
      executeReadMany (some ro) params =
        ⟨[⟨true, false, none, none⟩,
          ⟨false, true, none, some (transformReadManyResult custom f r)⟩],
         .ok (transformReadManyResult custom f r), [params], [], []⟩ := by
    cases params <;>
      simp only [executeReadMany, hsvc, hgm, hvs, htr, hbs, readValidate,
        readTransform, readBeforeService, hres, hafter, runHook2,
        typedAfterServiceMany, hos]
  refine ⟨by rw [hmain], by rw [hmain]; rfl, ?_, ?_⟩
  · intro hc; simp [transformReadManyResult, hc]
  · intro t hc; simp [transformReadManyResult, hc]

/-- Witness for C9: the concrete factory-wired read-many call resolves
with the element-wise transformed result, `meta` unchanged. -/
theorem C9_witness :
    (executeReadMany (some c9ReadOpts) (some 0)).outcome =
      .ok (transformReadManyResult none Nat.succ c9Result) ∧
    transformReadManyResult none Nat.succ c9Result =
      ⟨c9Result.data.map Nat.succ, c9Result.meta⟩ :=
  have h := C9_readMany_transformation c9ReadOpts _ _ Nat.succ none (some 0) c9Result
    rfl rfl rfl rfl rfl rfl rfl rfl
  ⟨h.1, h.2.2.1 rfl⟩

theorem rmCatch_none_onErrorRuns {P R2 : Type}
    (oe : Option (JsError → P → Except JsError Unit))
    (pre : List (OperationState R2)) (ga : List (Option P)) (osr : List (R2 × P))
    (e : JsError) :
    (rmCatch oe (none : Option P) pre ga osr e).onErrorRuns = [] := by
  cases oe <;> rfl

theorem rmCatch_onSuccessRuns {P R2 : Type}
    (oe : Option (JsError → P → Except JsError Unit)) (op : Option P)
    (pre : List (OperationState R2)) (ga : List (Option P)) (osr : List (R2 × P))
    (e : JsError) :
    (rmCatch oe op pre ga osr e : ReadManyTrace P R2).onSuccessRuns = osr := rfl

/-- C10: In read-many `execute`, `onSuccessMany` is invoked only when
params were supplied, and so is `onErrorMany`: with `params = undefined`
neither hook ever runs, on any path, even when both are configured; and
a successful `getMany()` call with absent params still resolves and sets
the terminal success state without invoking `onSuccessMany`. -/
theorem C10_many_hooks_params_guard {P R1 R2 : Type}
    (ro : ReadOperationOptions P R1 R2) :
    ((executeReadMany (some ro) (none : Option P)).onSuccessRuns = [] ∧
     (executeReadMany (some ro) (none : Option P)).onErrorRuns = []) ∧
    (∀ (svc : ReadService P R1 R2) (gm : Option P → Except JsError R2) (r : R2),
       ro.service = some svc → svc.getMany = some gm →
       ro.afterServiceMany = none → gm none = .ok r →
       (executeReadMany (some ro) none).outcome = .ok r ∧
       (executeReadMany (some ro) none).writes.getLast? =
         some ⟨false, true, none, some r⟩) := by
  constructor
  · unfold executeReadMany
    iterate 12 (all_goals (try split)
                all_goals (try simp_all [readValidate, readTransform,
                  readBeforeService, runHook2, rmCatch_none_onErrorRuns,
                  rmCatch_onSuccessRuns]))
  · intro svc gm r hsvc hgm hafter hres
    refine ⟨?_, ?_⟩ <;>
      (unfold executeReadMany
       iterate 14 (all_goals (try split)
                   all_goals (try simp_all [readValidate, readTransform,
                     readBeforeService, runHook2])))

/-- Witness for C10: with params absent, the configured hooks never run
and the call still resolves with the terminal success state set. -/
theorem C10_witness :
    ((executeReadMany (some c10ReadOpts) none).onSuccessRuns = [] ∧
     (executeReadMany (some c10ReadOpts) none).onErrorRuns = []) ∧
    ((executeReadMany (some c10ReadOpts) none).outcome = .ok 5 ∧
     (executeReadMany (some c10ReadOpts) none).writes.getLast? =
       some ⟨false, true, none, some 5⟩) :=
  ⟨(C10_many_hooks_params_guard c10ReadOpts).1,
   (C10_many_hooks_params_guard c10ReadOpts).2 _ _ 5 rfl rfl rfl rfl⟩
